import Mathlib

/- Shallow embedding of the transactional-outbox subsystem of the library
service: the outbox repository (SendMessage / GetMessages / MarkAs over the
outbox table), the delivery scheduler worker loop, the transactor, and the
domain store operations the claims refer to.  Timestamps are naturals,
payloads are opaque strings, and each SQL statement is rendered as a pure
function on a list of rows. -/

/-- Outbox record status, mirroring `repository.Status` and the enum domain
CREATED, IN_PROGRESS, SUCCESS, ABANDONED of the outbox table. -/
inductive Status where
  | created
  | inProgress
  | success
  | abandoned
deriving DecidableEq, Repr

/-- Go declares `type OutboxKind int`; any int is a possible kind value. -/
abbrev OutboxKind := Int

def OutboxKindUndefined : OutboxKind := 0

def OutboxKindAuthor : OutboxKind := 1

def OutboxKindBook : OutboxKind := 2

/-- `OutboxKind.String()`: "author" for Author, "book" for Book, and
"undefined" for every other value (the default switch branch). -/
def kindString (k : OutboxKind) : String :=
  if k = OutboxKindAuthor then "author"
  else if k = OutboxKindBook then "book"
  else "undefined"

/-- One row of the outbox table. -/
structure OutboxRow where
  idempotencyKey : String
  data : String
  status : Status
  kind : OutboxKind
  attempts : Nat
  createdAt : Nat
  updatedAt : Nat
deriving DecidableEq, Repr

abbrev OutboxTable := List OutboxRow

/-- The row returned by GetMessages (`repository.OutboxData`). -/
structure OutboxData where
  idempotencyKey : String
  kind : OutboxKind
  rawData : String
deriving DecidableEq, Repr

/-- Whether the table already holds a row with this primary key. -/
def hasKey (tbl : OutboxTable) (key : String) : Bool :=
  tbl.any (fun r => r.idempotencyKey == key)

/-- `SendMessage`: INSERT INTO outbox (idempotency_key, data, status, kind,
attempts) VALUES (key, message, CREATED, kind, 0) ON CONFLICT
(idempotency_key) DO NOTHING.  `created_at` and `updated_at` take their
DEFAULT now() values.  On a key conflict the insert is skipped and the
call reports no error. -/
def SendMessage (tbl : OutboxTable) (key : String) (kind : OutboxKind)
    (message : String) (now : Nat) : OutboxTable :=
  if hasKey tbl key then tbl
  else tbl ++ [{ idempotencyKey := key, data := message, status := .created,
                 kind := kind, attempts := 0, createdAt := now, updatedAt := now }]

/-- Modelled from the spec: the database migration that installs a
row-update trigger refreshing `outbox.updated_at` is not under src/ (only
the assignment README sketches the schema); the spec states that
`updatedAt` is refreshed on every status transition, so every row touched
by an UPDATE gets `updatedAt := now`. -/
def refreshUpdatedAt (r : OutboxRow) (now : Nat) : OutboxRow :=
  { r with updatedAt := now }

/-- The CASE expressions of the MarkAs UPDATE, applied to a single matched
row: status becomes ABANDONED when the row is IN_PROGRESS, the target is
CREATED and attempts + 1 exceeds the retry ceiling, and otherwise becomes
the target status unconditionally; attempts is bumped exactly when the row
is IN_PROGRESS and the target is CREATED or SUCCESS. -/
def markRow (s : Status) (attemptsRetry : Int) (now : Nat) (r : OutboxRow) : OutboxRow :=
  let newStatus :=
    if r.status = .inProgress ∧ s = .created ∧ (r.attempts : Int) + 1 > attemptsRetry
    then Status.abandoned
    else s
  let newAttempts :=
    if r.status = .inProgress ∧ (s = .created ∨ s = .success)
    then r.attempts + 1
    else r.attempts
  refreshUpdatedAt { r with status := newStatus, attempts := newAttempts } now

/-- `MarkAs`: an empty key list returns immediately; otherwise the UPDATE
applies `markRow` to every row whose idempotency_key is in the list (the
WHERE clause filters on the key only, not on the current status). -/
def MarkAs (tbl : OutboxTable) (idempotencyKeys : List String) (s : Status)
    (attemptsRetry : Int) (now : Nat) : OutboxTable :=
  if idempotencyKeys = [] then tbl
  else tbl.map (fun r =>
    if r.idempotencyKey ∈ idempotencyKeys then markRow s attemptsRetry now r else r)

/-- A row is due: status = CREATED OR (status = IN_PROGRESS AND
updated_at < now() - leaseTTL). -/
def due (now leaseTTL : Nat) (r : OutboxRow) : Bool :=
  r.status == .created || (r.status == .inProgress && decide (r.updatedAt + leaseTTL < now))

/-- ORDER BY created_at of the GetMessages subquery. -/
def byCreatedAt (a b : OutboxRow) : Prop := a.createdAt ≤ b.createdAt

instance : DecidableRel byCreatedAt :=
  fun a b => inferInstanceAs (Decidable (a.createdAt ≤ b.createdAt))

instance : IsTotal OutboxRow byCreatedAt :=
  ⟨fun a b => Nat.le_total a.createdAt b.createdAt⟩

instance : IsTrans OutboxRow byCreatedAt :=
  ⟨fun _ _ _ h h2 => Nat.le_trans h h2⟩

/-- The subquery of GetMessages: due rows, ORDER BY created_at, LIMIT
batchSize.  (A single transaction is modelled, so FOR UPDATE SKIP LOCKED
skips nothing.) -/
def selectedRows (tbl : OutboxTable) (batchSize leaseTTL now : Nat) : List OutboxRow :=
  ((tbl.filter (due now leaseTTL)).insertionSort byCreatedAt).take batchSize

def selectedKeys (tbl : OutboxTable) (batchSize leaseTTL now : Nat) : List String :=
  (selectedRows tbl batchSize leaseTTL now).map (·.idempotencyKey)

/-- `GetMessages`: UPDATE outbox SET status = IN_PROGRESS WHERE
idempotency_key IN (subquery) RETURNING idempotency_key, data, kind.  The
returned list carries key, payload and kind of each selected row; the new
table has every selected row in IN_PROGRESS with `updated_at` refreshed by
the trigger, and every other row untouched. -/
def GetMessages (tbl : OutboxTable) (batchSize leaseTTL now : Nat) :
    List OutboxData × OutboxTable :=
  let keys := selectedKeys tbl batchSize leaseTTL now
  ((selectedRows tbl batchSize leaseTTL now).map
      (fun r => { idempotencyKey := r.idempotencyKey, kind := r.kind, rawData := r.data }),
   tbl.map (fun r =>
      if r.idempotencyKey ∈ keys
      then refreshUpdatedAt { r with status := .inProgress } now
      else r))

/-- A kind handler `func(ctx, data) error`: `true` stands for a nil error
(the HTTP POST got a 2xx), `false` for a non-nil one. -/
abbrev KindHandler := String → Bool

/-- The registry `func(kind) (KindHandler, error)`: `none` stands for the
(nil, error) lookup failure. -/
abbrev GlobalHandler := OutboxKind → Option KindHandler

/-- `globalOutboxHandler` from the application wiring: Author and Book map
to their HTTP sink handlers; every other kind value falls to the default
branch returning an unsupported-kind error. -/
def globalOutboxHandler (authorHandler bookHandler : KindHandler) : GlobalHandler :=
  fun kind =>
    if kind = OutboxKindAuthor then some authorHandler
    else if kind = OutboxKindBook then some bookHandler
    else none

/-- The per-message loop of `worker`: each fetched message whose registry
lookup fails goes to failKeys without invoking any handler; otherwise the
handler runs once and the key goes to successKeys on a nil error and to
failKeys on a non-nil one.  The third component counts handler
invocations (each of which is one HTTP POST in the sink handlers). -/
def partitionOutcomes (gh : GlobalHandler) : List OutboxData → List String × List String × Nat
  | [] => ([], [], 0)
  | m :: ms =>
    let rest := partitionOutcomes gh ms
    match gh m.kind with
    | none => (rest.1, m.idempotencyKey :: rest.2.1, rest.2.2)
    | some h =>
      if h m.rawData then (m.idempotencyKey :: rest.1, rest.2.1, rest.2.2 + 1)
      else (rest.1, m.idempotencyKey :: rest.2.1, rest.2.2 + 1)

/-- One enabled, error-free iteration of the `worker` loop body inside its
WithTx boundary: fetch a batch, partition by outcome, mark the successes
as SUCCESS and the failures as CREATED.  Returns the table after commit
and the number of handler invocations. -/
def workerStep (gh : GlobalHandler) (attemptsRetry : Int) (tbl : OutboxTable)
    (batchSize leaseTTL now : Nat) : OutboxTable × Nat :=
  let fetched := GetMessages tbl batchSize leaseTTL now
  let parts := partitionOutcomes gh fetched.1
  let afterSuccess := MarkAs fetched.2 parts.1 .success attemptsRetry now
  let afterFail := MarkAs afterSuccess parts.2.1 .created attemptsRetry now
  (afterFail, parts.2.2)

/-- Outcome of the function passed to WithTx. -/
inductive FnOutcome where
  | ok
  | fail
  | panics
deriving DecidableEq, Repr

/-- What the deferred hook of WithTx does to the transaction. -/
inductive TxAction where
  | commit
  | rollback
deriving DecidableEq, Repr

/-- The ambient scope: a context that may carry a transaction handle. -/
structure Ctx where
  tx : Option Nat
deriving DecidableEq, Repr

/-- `injectTx` stores the freshly begun transaction in the context. -/
def injectTx (ctx : Ctx) (t : Nat) : Ctx := { ctx with tx := some t }

/-- `extractTx` reads the transaction back; `none` stands for the
ErrTxNotFound return. -/
def extractTx (ctx : Ctx) : Option Nat := ctx.tx

/-- The named return value `txErr` of WithTx as the deferred hook sees it:
it is assigned (non-nil) only on the error-return path; when the function
returns nil it stays nil, and when the function panics it was never
assigned and also stays nil, because WithTx installs no recover. -/
def withTxErr : FnOutcome → Bool
  | .fail => true
  | _ => false

/-- Observable outcome of one WithTx call. -/
structure WithTxRun where
  action : TxAction
  returnedErr : Bool
  panicked : Bool
  committed : Bool
deriving DecidableEq, Repr

/-- `WithTx`: the deferred hook rolls back when `txErr` is non-nil and
commits otherwise; a commit or rollback error is passed to
logger.CheckError only and never assigned to `txErr`.  `committed` records
whether the transaction durably committed (commit chosen and the commit
call itself succeeded). -/
def WithTx (outcome : FnOutcome) (commitFails : Bool) : WithTxRun :=
  let txErr := withTxErr outcome
  let action := if txErr then TxAction.rollback else TxAction.commit
  { action := action
    returnedErr := txErr
    panicked := outcome = .panics
    committed := match action with
      | .commit => !commitFails
      | .rollback => false }

/-- Domain entity Author. -/
structure Author where
  id : String
  name : String
  createdAt : Nat
  updatedAt : Nat
deriving DecidableEq, Repr

/-- Domain entity Book. -/
structure Book where
  id : String
  name : String
  authorIDs : List String
  createdAt : Nat
  updatedAt : Nat
deriving DecidableEq, Repr

/-- The persistent state the claims touch: author and book tables, the
author_book link table as (author_id, book_id) pairs, and the outbox. -/
structure LibState where
  authors : List Author
  books : List Book
  authorBook : List (String × String)
  outbox : OutboxTable
deriving DecidableEq, Repr

/-- The entity-level errors surfaced by the repository layer. -/
inductive LibErr where
  | authorNotFound
  | bookNotFound
deriving DecidableEq, Repr

def hasAuthor (st : LibState) (id : String) : Bool :=
  st.authors.any (fun a => a.id == id)

def hasBook (st : LibState) (id : String) : Bool :=
  st.books.any (fun b => b.id == id)

/-- Whether copying (author, bookID) link rows violates a foreign key:
some referenced author does not exist, or at least one row is copied and
the referenced book does not exist. -/
def fkViolation (st : LibState) (bookID : String) (authors : List String) : Bool :=
  authors.any (fun a => !(hasAuthor st a)) || (!authors.isEmpty && !(hasBook st bookID))

/-- `addBookAuthors`: CopyFrom of (author_id, book_id) rows into
author_book.  A row referencing a missing author or a missing book raises
the foreign-key violation 23503, which `errConvert` turns into
entity.ErrAuthorNotFound; zero rows copy cleanly. -/
def addBookAuthors (st : LibState) (bookID : String) (authors : List String) :
    LibState × Option LibErr :=
  if fkViolation st bookID authors
  then (st, some .authorNotFound)
  else ({ st with authorBook := st.authorBook ++ authors.map (fun a => (a, bookID)) }, none)

/-- `RegisterAuthor` (repository): INSERT INTO author (name) RETURNING the
store-generated id and timestamps, then commit. -/
def RegisterAuthorRepo (st : LibState) (name genID : String) (now : Nat) :
    LibState × Author :=
  let a : Author := { id := genID, name := name, createdAt := now, updatedAt := now }
  ({ st with authors := st.authors ++ [a] }, a)

/-- `ChangeAuthorInfo` (repository): UPDATE author SET name WHERE id, then
commit.  The Exec result is not inspected for its rows-affected count, so
a non-existent id updates zero rows and the call still returns nil.  The
author table trigger refreshes updated_at on the touched rows. -/
def ChangeAuthorInfo (st : LibState) (idAuthor newName : String) (now : Nat) :
    LibState × Option LibErr :=
  ({ st with authors := st.authors.map (fun a =>
      if a.id = idAuthor then { a with name := newName, updatedAt := now } else a) },
   none)

/-- `AddBook` (repository): insert the book with generated id and
timestamps, copy the author links, commit; a foreign-key failure rolls the
whole transaction back and surfaces authorNotFound. -/
def AddBookRepo (st : LibState) (name : String) (authorIDs : List String)
    (genID : String) (now : Nat) : LibState × Except LibErr Book :=
  let b : Book := { id := genID, name := name, authorIDs := authorIDs,
                    createdAt := now, updatedAt := now }
  let st1 := { st with books := st.books ++ [b] }
  match addBookAuthors st1 genID authorIDs with
  | (_, some e) => (st, .error e)
  | (st2, none) => (st2, .ok b)

/-- `UpdateBook` (repository): UPDATE book SET name WHERE id (rows-affected
not checked); SELECT the current authors of the book; one pass over the
new author list builds newAuthors (ids not currently linked) and removes
the matched ids from the current-author map, whose leftover keys are
excessAuthors; then DELETE FROM author_book WHERE author_id =
ANY(excessAuthors) , a delete that carries no book_id filter, and CopyFrom
the (newAuthor, bookID) rows.  A foreign-key failure rolls back. -/
def UpdateBook (st : LibState) (bookID newName : String) (authorIDs : List String)
    (now : Nat) : LibState × Option LibErr :=
  let st1 : LibState := { st with books := st.books.map (fun b =>
      if b.id = bookID then { b with name := newName, updatedAt := now } else b) }
  let cur : List String := (st1.authorBook.filter (fun p => p.2 == bookID)).map (·.1)
  let step := authorIDs.foldl
    (fun (acc : List String × List String) id =>
      if id ∈ acc.2 then (acc.1, acc.2.erase id) else (acc.1 ++ [id], acc.2))
    ([], cur)
  let newAuthors := step.1
  let excessAuthors := step.2
  let st2 : LibState := { st1 with authorBook :=
      (st1.authorBook.filter (fun p => !(excessAuthors.contains p.1))) }
  match addBookAuthors st2 bookID newAuthors with
  | (_, some e) => (st, some e)
  | (st3, none) => (st3, none)

/-- `RegisterAuthor` (use case): one WithTx boundary inserts the author,
serializes it, derives the key as OutboxKindAuthor.String() + "_" +
author.ID and enqueues it; domain write and outbox enqueue commit as one
state transition. -/
def RegisterAuthorUC (st : LibState) (authorName genID : String)
    (marshal : Author → String) (now : Nat) : LibState × Author :=
  let inserted := RegisterAuthorRepo st authorName genID now
  let key := kindString OutboxKindAuthor ++ "_" ++ inserted.2.id
  ({ inserted.1 with outbox :=
      (SendMessage inserted.1.outbox key OutboxKindAuthor (marshal inserted.2) now) },
   inserted.2)

/-- `AddBook` (use case): one WithTx boundary creates the book, serializes
it, derives the key as OutboxKindBook.String() + "_" + book.ID and
enqueues it; an error from the repository rolls the boundary back. -/
def AddBookUC (st : LibState) (name : String) (authorIDs : List String)
    (genID : String) (marshal : Book → String) (now : Nat) :
    LibState × Except LibErr Book :=
  match AddBookRepo st name authorIDs genID now with
  | (_, .error e) => (st, .error e)
  | (st1, .ok book) =>
    let key := kindString OutboxKindBook ++ "_" ++ book.id
    ({ st1 with outbox :=
        (SendMessage st1.outbox key OutboxKindBook (marshal book) now) },
     .ok book)

/-- The empty persistent state. -/
def emptyLib : LibState := { authors := [], books := [], authorBook := [], outbox := [] }

/-- A record already in the terminal SUCCESS state. -/
def c2Row : OutboxRow :=
  { idempotencyKey := "k1", data := "d", status := .success, kind := OutboxKindAuthor,
    attempts := 1, createdAt := 0, updatedAt := 0 }

/-- Scenario S3 seed: a Book record in CREATED with no attempts yet. -/
def s3Row : OutboxRow :=
  { idempotencyKey := "k2", data := "d", status := .created, kind := OutboxKindBook,
    attempts := 0, createdAt := 0, updatedAt := 0 }

/-- Registry for scenario S3: the author sink delivers, the book sink
always answers with a non-2xx status. -/
def s3Handlers : GlobalHandler := globalOutboxHandler (fun _ => true) (fun _ => false)

/-- One S3 worker iteration: retry ceiling 3, batch 10, lease TTL 5. -/
def s3Step (tbl : OutboxTable) (now : Nat) : OutboxTable :=
  (workerStep s3Handlers 3 tbl 10 5 now).1

/-- Scenario S4 seed: a record whose kind is the Undefined sentinel, for
which no handler is registered. -/
def k3Row : OutboxRow :=
  { idempotencyKey := "k3", data := "d", status := .created, kind := OutboxKindUndefined,
    attempts := 0, createdAt := 0, updatedAt := 0 }

/-- A record holding an expired lease: IN_PROGRESS with a stale
updated_at. -/
def leaseRow : OutboxRow :=
  { idempotencyKey := "k6", data := "d", status := .inProgress, kind := OutboxKindAuthor,
    attempts := 0, createdAt := 0, updatedAt := 0 }

/-- State for the UpdateBook frame claim: author A is linked to both book
B1 and book B2. -/
def c8State : LibState :=
  { authors := [{ id := "A", name := "Ann", createdAt := 0, updatedAt := 0 }],
    books := [{ id := "B1", name := "b1", authorIDs := ["A"], createdAt := 0, updatedAt := 0 },
              { id := "B2", name := "b2", authorIDs := ["A"], createdAt := 0, updatedAt := 0 }],
    authorBook := [("A", "B1"), ("A", "B2")],
    outbox := [] }

/-- A state with one registered author, used to exercise AddBook. -/
def oneAuthorLib : LibState :=
  { authors := [{ id := "A", name := "Ann", createdAt := 0, updatedAt := 0 }],
    books := [], authorBook := [], outbox := [] }

/-- The message GetMessages returns for the expired-lease row. -/
def leaseMsg : OutboxData :=
  { idempotencyKey := "k6", kind := OutboxKindAuthor, rawData := "d" }

lemma markRow_key (s : Status) (retry : Int) (now : Nat) (r : OutboxRow) :
    (markRow s retry now r).idempotencyKey = r.idempotencyKey := rfl

lemma markRow_not_inProgress (s : Status) (retry : Int) (now : Nat) (r : OutboxRow)
    (h : r.status ≠ .inProgress) :
    (markRow s retry now r).status = s ∧ (markRow s retry now r).attempts = r.attempts := by
  simp [markRow, refreshUpdatedAt, h]

lemma markRow_release (retry : Int) (now : Nat) (r : OutboxRow)
    (h : r.status = .inProgress) :
    (markRow .created retry now r).attempts = r.attempts + 1
    ∧ ((markRow .created retry now r).status
        = if (r.attempts : Int) + 1 > retry then Status.abandoned else Status.created) := by
  simp [markRow, refreshUpdatedAt, h]

lemma mem_MarkAs (tbl : OutboxTable) (keys : List String) (s : Status) (retry : Int)
    (now : Nat) (r : OutboxRow) (hr : r ∈ tbl) (hk : r.idempotencyKey ∈ keys) :
    markRow s retry now r ∈ MarkAs tbl keys s retry now := by
  unfold MarkAs
  have hne : keys ≠ [] := by
    intro h
    rw [h] at hk
    exact absurd hk (List.not_mem_nil _)
  rw [if_neg hne]
  have hmem := List.mem_map_of_mem
    (fun r : OutboxRow => if r.idempotencyKey ∈ keys then markRow s retry now r else r) hr
  simpa [hk] using hmem

lemma hasKey_SendMessage (tbl : OutboxTable) (k : String) (kind : OutboxKind)
    (msg : String) (now : Nat) : hasKey (SendMessage tbl k kind msg now) k = true := by
  unfold SendMessage
  by_cases h : hasKey tbl k = true
  · rw [if_pos h]
    exact h
  · rw [if_neg h]
    simp [hasKey]

lemma due_iff (now leaseTTL : Nat) (r : OutboxRow) :
    due now leaseTTL r = true ↔
      (r.status = .created ∨ (r.status = .inProgress ∧ now - r.updatedAt > leaseTTL)) := by
  unfold due
  have harith : r.updatedAt + leaseTTL < now ↔ leaseTTL < now - r.updatedAt := by omega
  simp [Bool.or_eq_true, Bool.and_eq_true, beq_iff_eq, decide_eq_true_iff, harith]

lemma selectedRows_mem (tbl : OutboxTable) (b l n : Nat) (r : OutboxRow)
    (hr : r ∈ selectedRows tbl b l n) : r ∈ tbl ∧ due n l r = true := by
  unfold selectedRows at hr
  have h1 : r ∈ (tbl.filter (due n l)).insertionSort byCreatedAt :=
    (List.take_sublist _ _).subset hr
  have h2 : r ∈ tbl.filter (due n l) :=
    (List.perm_insertionSort byCreatedAt _).subset h1
  exact ⟨List.mem_of_mem_filter h2, List.of_mem_filter h2⟩

lemma selectedRows_sorted (tbl : OutboxTable) (b l n : Nat) :
    (selectedRows tbl b l n).Pairwise byCreatedAt := by
  unfold selectedRows
  exact List.Pairwise.sublist (List.take_sublist _ _)
    (List.sorted_insertionSort byCreatedAt _)

lemma selectedRows_length (tbl : OutboxTable) (b l n : Nat) :
    (selectedRows tbl b l n).length ≤ b := by
  unfold selectedRows
  simp [List.length_take]

lemma SendMessage_conflict (tbl : OutboxTable) (k : String) (kind : OutboxKind)
    (msg : String) (now : Nat) (h : hasKey tbl k = true) :
    SendMessage tbl k kind msg now = tbl := by
  simp [SendMessage, h]

/-- Claim C2: refuted.  MarkAs does not ignore keys whose record is
already terminal: this concrete call moves a SUCCESS record back to
CREATED, so the record is not left unchanged. -/
theorem markAs_terminal_not_ignored_cex :
    MarkAs [c2Row] (["k1"]) .created 3 5 ≠ [c2Row]
    ∧ (MarkAs [c2Row] (["k1"]) .created 3 5).map (·.status) = [.created]
    ∧ c2Row.status = .success := by decide

/-- Claim C2 (amended): for a key whose record is not IN_PROGRESS, in
particular one already terminal in SUCCESS or ABANDONED, MarkAs leaves
attempts unchanged but overwrites the status with the requested target
status. -/
theorem markAs_terminal_overwritten (tbl : OutboxTable) (keys : List String)
    (s : Status) (retry : Int) (now : Nat) :
    ∀ r ∈ tbl, (r.status = .success ∨ r.status = .abandoned) →
      r.idempotencyKey ∈ keys →
      ∃ r' ∈ MarkAs tbl keys s retry now,
        r'.idempotencyKey = r.idempotencyKey ∧ r'.status = s
        ∧ r'.attempts = r.attempts := by
  intro r hr hterm hk
  have hni : r.status ≠ .inProgress := by
    rcases hterm with h | h <;> simp [h]
  rcases markRow_not_inProgress s retry now r hni with ⟨hs, ha⟩
  exact ⟨markRow s retry now r, mem_MarkAs tbl keys s retry now r hr hk,
    markRow_key s retry now r, hs, ha⟩

theorem markAs_terminal_overwritten_witness :
    ∃ r' ∈ MarkAs [c2Row] (["k1"]) .created 3 5,
      r'.idempotencyKey = c2Row.idempotencyKey ∧ r'.status = .created
      ∧ r'.attempts = c2Row.attempts :=
  markAs_terminal_overwritten [c2Row] (["k1"]) .created 3 5 c2Row (by decide)
    (by decide) (by decide)

/-- Claim C3: refuted.  With attemptsRetry = 3 the repeatedly failing
record is released three times with attempts 1, 2, 3 and only the fourth
fail-marking abandons it, at attempts = 4; it never holds ABANDONED with
attempts = 3. -/
theorem retry_abandon_attempts_cex :
    (s3Step [s3Row] 1).map (fun r => (r.status, r.attempts)) = [(.created, 1)]
    ∧ (s3Step (s3Step [s3Row] 1) 2).map (fun r => (r.status, r.attempts))
        = [(.created, 2)]
    ∧ (s3Step (s3Step (s3Step [s3Row] 1) 2) 3).map (fun r => (r.status, r.attempts))
        = [(.created, 3)]
    ∧ (s3Step (s3Step (s3Step (s3Step [s3Row] 1) 2) 3) 4).map
        (fun r => (r.status, r.attempts)) = [(.abandoned, 4)] := by decide

/-- Claim C3 (amended): marking a leased (IN_PROGRESS) record as failed
bumps attempts by one and moves it to ABANDONED exactly when the bumped
value exceeds the retry ceiling, and back to CREATED otherwise; with
attemptsRetry = 3 the repeatedly failing record therefore reaches
ABANDONED with attempts = 4 = attemptsRetry + 1. -/
theorem retry_release_abandon_spec (tbl : OutboxTable) (keys : List String)
    (retry : Int) (now : Nat) :
    (∀ r ∈ tbl, r.status = .inProgress → r.idempotencyKey ∈ keys →
      ∃ r' ∈ MarkAs tbl keys .created retry now,
        r'.idempotencyKey = r.idempotencyKey ∧ r'.attempts = r.attempts + 1
        ∧ (r'.status = .abandoned ↔ (r.attempts : Int) + 1 > retry)
        ∧ (r'.status = .created ↔ ¬((r.attempts : Int) + 1 > retry)))
    ∧ (s3Step (s3Step (s3Step (s3Step [s3Row] 1) 2) 3) 4).map
        (fun r => (r.status, r.attempts)) = [(.abandoned, 4)] := by
  constructor
  · intro r hr hst hk
    rcases markRow_release retry now r hst with ⟨ha, hs⟩
    refine ⟨markRow .created retry now r,
      mem_MarkAs tbl keys .created retry now r hr hk,
      markRow_key .created retry now r, ha, ?_, ?_⟩ <;>
      rw [hs] <;> by_cases hc : (r.attempts : Int) + 1 > retry <;> simp [hc]
  · decide

theorem retry_release_abandon_spec_witness :
    ∃ r' ∈ MarkAs [leaseRow] (["k6"]) .created 3 9,
      r'.idempotencyKey = leaseRow.idempotencyKey
      ∧ r'.attempts = leaseRow.attempts + 1
      ∧ (r'.status = .abandoned ↔ (leaseRow.attempts : Int) + 1 > 3)
      ∧ (r'.status = .created ↔ ¬((leaseRow.attempts : Int) + 1 > 3)) :=
  (retry_release_abandon_spec [leaseRow] (["k6"]) 3 9).1 leaseRow (by decide)
    (by decide) (by decide)

/-- Claim C5: refuted in its last part.  One worker iteration over a
record of the Undefined sentinel kind invokes no handler (zero HTTP
calls), but the record is not marked non-retryable: it is released back
to CREATED with attempts bumped to 1, not moved to a terminal state. -/
theorem unknown_kind_released_cex :
    (workerStep s3Handlers 3 [k3Row] 10 5 1).2 = 0
    ∧ (workerStep s3Handlers 3 [k3Row] 10 5 1).1.map (fun r => (r.status, r.attempts))
        = [(.created, 1)]
    ∧ ¬ ∃ r ∈ (workerStep s3Handlers 3 [k3Row] 10 5 1).1,
        (r.status = .abandoned ∨ r.status = .success) := by decide

/-- Claim C5 (amended): for a leased record of an unregistered kind
(including the Undefined sentinel) the registry lookup fails, no handler
and hence no HTTP call runs for it, and the worker fail-marks it with
target CREATED like any transient failure: it is released with attempts
bumped while the bump stays within the retry ceiling. -/
theorem unknown_kind_fail_release (aH bH : KindHandler) (k : OutboxKind)
    (hA : k ≠ OutboxKindAuthor) (hB : k ≠ OutboxKindBook) (m : OutboxData)
    (hm : m.kind = k) (tbl : OutboxTable) (keys : List String) (retry : Int)
    (now : Nat) :
    globalOutboxHandler aH bH k = none
    ∧ partitionOutcomes (globalOutboxHandler aH bH) [m] = ([], [m.idempotencyKey], 0)
    ∧ (∀ r ∈ tbl, r.status = .inProgress → r.idempotencyKey ∈ keys →
        ¬((r.attempts : Int) + 1 > retry) →
        ∃ r' ∈ MarkAs tbl keys .created retry now,
          r'.idempotencyKey = r.idempotencyKey ∧ r'.status = .created
          ∧ r'.attempts = r.attempts + 1) := by
  have hgh : globalOutboxHandler aH bH k = none := by
    simp [globalOutboxHandler, hA, hB]
  refine ⟨hgh, ?_, ?_⟩
  · simp [partitionOutcomes, hm, hgh]
  · intro r hr hst hk hle
    rcases markRow_release retry now r hst with ⟨ha, hs⟩
    exact ⟨markRow .created retry now r,
      mem_MarkAs tbl keys .created retry now r hr hk,
      markRow_key .created retry now r, by rw [hs, if_neg hle], ha⟩

/-- The message carried by the Undefined-kind seed row. -/
def k3Msg : OutboxData :=
  { idempotencyKey := "k3", kind := OutboxKindUndefined, rawData := "d" }

theorem unknown_kind_fail_release_witness :
    globalOutboxHandler (fun _ => true) (fun _ => true) OutboxKindUndefined = none
    ∧ partitionOutcomes (globalOutboxHandler (fun _ => true) (fun _ => true)) [k3Msg]
        = ([], [k3Msg.idempotencyKey], 0)
    ∧ (∀ r ∈ [leaseRow], r.status = .inProgress → r.idempotencyKey ∈ (["k6"]) →
        ¬((r.attempts : Int) + 1 > 3) →
        ∃ r' ∈ MarkAs [leaseRow] (["k6"]) .created 3 9,
          r'.idempotencyKey = r.idempotencyKey ∧ r'.status = .created
          ∧ r'.attempts = r.attempts + 1) :=
  unknown_kind_fail_release (fun _ => true) (fun _ => true) OutboxKindUndefined
    (by decide) (by decide) k3Msg (by decide) [leaseRow] (["k6"]) 3 9

/-- Claim C6: SendMessage on a fresh key appends exactly one CREATED
record with attempts = 0, and a second call with the same key, any other
kind and any other payload is a no-op leaving the table unchanged. -/
theorem sendMessage_idempotent_insert (tbl : OutboxTable) (k : String)
    (kind kind2 : OutboxKind) (msg msg2 : String) (now now2 : Nat)
    (hfresh : hasKey tbl k = false) :
    SendMessage tbl k kind msg now
      = tbl ++ [{ idempotencyKey := k, data := msg, status := .created, kind := kind,
                  attempts := 0, createdAt := now, updatedAt := now }]
    ∧ SendMessage (SendMessage tbl k kind msg now) k kind2 msg2 now2
      = SendMessage tbl k kind msg now := by
  constructor
  · simp [SendMessage, hfresh]
  · exact SendMessage_conflict _ k kind2 msg2 now2 (hasKey_SendMessage tbl k kind msg now)

theorem sendMessage_idempotent_insert_witness :
    SendMessage [] ("kx") OutboxKindAuthor ("p1") 3
      = [] ++ [{ idempotencyKey := "kx", data := "p1", status := .created,
                 kind := OutboxKindAuthor, attempts := 0, createdAt := 3, updatedAt := 3 }]
    ∧ SendMessage (SendMessage [] ("kx") OutboxKindAuthor ("p1") 3) ("kx")
        OutboxKindBook ("p2") 8
      = SendMessage [] ("kx") OutboxKindAuthor ("p1") 3 :=
  sendMessage_idempotent_insert [] ("kx") OutboxKindAuthor OutboxKindBook ("p1") ("p2")
    3 8 (by decide)

/-- Claim C7: refuted in its panic part.  WithTx installs no recover, so
when the function panics the named return txErr is still nil and the
deferred hook commits the transaction instead of rolling it back. -/
theorem withTx_panic_commits_cex :
    (WithTx .panics false).action = .commit
    ∧ (WithTx .panics false).action ≠ .rollback := by decide

/-- Claim C7 (amended): WithTx makes the transaction available to the
function through the ambient context, commits and returns nil when the
function returns nil, rolls back and propagates the error when the
function returns one; when the function panics the panic propagates but
the deferred hook commits, it does not roll back. -/
theorem withTx_commit_rollback_spec (cf : Bool) (ctx : Ctx) (t : Nat) :
    extractTx (injectTx ctx t) = some t
    ∧ (WithTx .ok cf).action = .commit ∧ (WithTx .ok cf).returnedErr = false
    ∧ (WithTx .fail cf).action = .rollback ∧ (WithTx .fail cf).returnedErr = true
    ∧ (WithTx .panics cf).action = .commit ∧ (WithTx .panics cf).panicked = true := by
  cases cf <;> simp [extractTx, injectTx, WithTx, withTxErr]

/-- Claim C10: when the function returns nil but the commit fails, WithTx
still returns nil; the returned error is identical whether the commit
succeeded or not, so the caller cannot tell the two apart. -/
theorem withTx_commit_error_swallowed :
    (WithTx .ok true).returnedErr = false ∧ (WithTx .ok true).committed = false
    ∧ (WithTx .ok false).returnedErr = false
    ∧ (WithTx .ok false).committed = true := by decide

lemma authorKey (gid : String) :
    kindString OutboxKindAuthor ++ "_" ++ gid = "author_" ++ gid := by
  have h : kindString OutboxKindAuthor ++ "_" = "author_" := by decide
  exact congrArg (fun x => x ++ gid) h

lemma bookKey (gid : String) :
    kindString OutboxKindBook ++ "_" ++ gid = "book_" ++ gid := by
  have h : kindString OutboxKindBook ++ "_" = "book_" := by decide
  exact congrArg (fun x => x ++ gid) h

lemma AddBookRepo_cases (st : LibState) (n : String) (ids : List String)
    (gid : String) (now : Nat) :
    (fkViolation { st with books := st.books ++
        [{ id := gid, name := n, authorIDs := ids, createdAt := now, updatedAt := now }] } gid ids = true
      → AddBookRepo st n ids gid now = (st, .error .authorNotFound))
    ∧ (fkViolation { st with books := st.books ++
        [{ id := gid, name := n, authorIDs := ids, createdAt := now, updatedAt := now }] } gid ids = false
      → AddBookRepo st n ids gid now =
          ({ st with
              books := st.books ++
                [{ id := gid, name := n, authorIDs := ids, createdAt := now, updatedAt := now }],
              authorBook := st.authorBook ++ ids.map (fun a => (a, gid)) },
           .ok { id := gid, name := n, authorIDs := ids, createdAt := now, updatedAt := now })) := by
  constructor
  · intro hv
    simp [AddBookRepo, addBookAuthors, hv]
  · intro hv
    simp [AddBookRepo, addBookAuthors, hv]

/-- Claim C1: a committed RegisterAuthor leaves an outbox record with key
"author_" + generated id and a committed AddBook one with key "book_" +
generated id, each inserted by the same state transition (WithTx boundary)
as the domain write, in status CREATED with attempts 0 — provided the
store-generated id is fresh so the derived key does not collide. -/
theorem registerAuthor_addBook_enqueue (st st2 : LibState) (an bn gidA gidB : String)
    (authorIDs : List String) (mA : Author → String) (mB : Book → String)
    (nowA nowB : Nat) (b : Book)
    (hA : hasKey st.outbox ("author_" ++ gidA) = false)
    (hB : hasKey st2.outbox ("book_" ++ gidB) = false)
    (hok : (AddBookUC st2 bn authorIDs gidB mB nowB).2 = .ok b) :
    (∃ r ∈ (RegisterAuthorUC st an gidA mA nowA).1.outbox,
       r.idempotencyKey = "author_" ++ gidA ∧ r.status = .created
       ∧ r.kind = OutboxKindAuthor ∧ r.attempts = 0)
    ∧ (∃ r ∈ (AddBookUC st2 bn authorIDs gidB mB nowB).1.outbox,
       r.idempotencyKey = "book_" ++ gidB ∧ r.status = .created
       ∧ r.kind = OutboxKindBook ∧ r.attempts = 0) := by
  constructor
  · simp only [RegisterAuthorUC, RegisterAuthorRepo]
    rw [authorKey gidA]
    simp only [SendMessage, hA, Bool.false_eq_true, if_false]
    exact ⟨_, List.mem_append_right _ (List.mem_singleton_self _), rfl, rfl, rfl, rfl⟩
  · by_cases hv : fkViolation { st2 with books := st2.books ++
        [{ id := gidB, name := bn, authorIDs := authorIDs, createdAt := nowB, updatedAt := nowB }] } gidB authorIDs
    · exfalso
      have heq := (AddBookRepo_cases st2 bn authorIDs gidB nowB).1 hv
      simp [AddBookUC, heq] at hok
    · have heq := (AddBookRepo_cases st2 bn authorIDs gidB nowB).2 (by simpa using hv)
      simp only [AddBookUC, heq]
      rw [bookKey gidB]
      simp only [SendMessage, hB, Bool.false_eq_true, if_false]
      exact ⟨_, List.mem_append_right _ (List.mem_singleton_self _), rfl, rfl, rfl, rfl⟩

theorem registerAuthor_addBook_enqueue_witness :
    (∃ r ∈ (RegisterAuthorUC emptyLib ("Ada") ("id1") (fun _ => "s") 7).1.outbox,
       r.idempotencyKey = "author_" ++ "id1" ∧ r.status = .created
       ∧ r.kind = OutboxKindAuthor ∧ r.attempts = 0)
    ∧ (∃ r ∈ (AddBookUC oneAuthorLib ("B") (["A"]) ("id2") (fun _ => "s") 8).1.outbox,
       r.idempotencyKey = "book_" ++ "id2" ∧ r.status = .created
       ∧ r.kind = OutboxKindBook ∧ r.attempts = 0) :=
  registerAuthor_addBook_enqueue emptyLib oneAuthorLib ("Ada") ("B") ("id1") ("id2")
    (["A"]) (fun _ => "s") (fun _ => "s") 7 8
    { id := "id2", name := "B", authorIDs := ["A"], createdAt := 8, updatedAt := 8 }
    (by decide) (by decide) rfl

/-- Claim C4: GetMessages selects at most batchSize records, each of them
due (CREATED, or IN_PROGRESS with now − updatedAt beyond the lease TTL),
the selection is ordered by createdAt ascending, every selected record is
transitioned to IN_PROGRESS with updatedAt refreshed, every unselected
record is untouched, and the returned entries carry each selected record's
idempotencyKey, kind and payload. -/
theorem getMessages_lease_spec (tbl : OutboxTable) (batchSize leaseTTL now : Nat) :
    (GetMessages tbl batchSize leaseTTL now).1.length ≤ batchSize
    ∧ (∀ m ∈ (GetMessages tbl batchSize leaseTTL now).1,
        ∃ r ∈ tbl,
          (r.status = .created ∨ (r.status = .inProgress ∧ now - r.updatedAt > leaseTTL))
          ∧ m.idempotencyKey = r.idempotencyKey ∧ m.kind = r.kind ∧ m.rawData = r.data)
    ∧ (selectedRows tbl batchSize leaseTTL now).Pairwise byCreatedAt
    ∧ (∀ r' ∈ (GetMessages tbl batchSize leaseTTL now).2,
        r'.idempotencyKey ∈ selectedKeys tbl batchSize leaseTTL now →
          r'.status = .inProgress ∧ r'.updatedAt = now)
    ∧ (∀ r ∈ tbl, r.idempotencyKey ∉ selectedKeys tbl batchSize leaseTTL now →
        r ∈ (GetMessages tbl batchSize leaseTTL now).2) := by
  refine ⟨?_, ?_, selectedRows_sorted tbl batchSize leaseTTL now, ?_, ?_⟩
  · simp only [GetMessages, List.length_map]
    exact selectedRows_length tbl batchSize leaseTTL now
  · intro m hm
    simp only [GetMessages] at hm
    rcases List.mem_map.mp hm with ⟨r, hr, rfl⟩
    rcases selectedRows_mem tbl batchSize leaseTTL now r hr with ⟨hrt, hdue⟩
    exact ⟨r, hrt, (due_iff now leaseTTL r).mp hdue, rfl, rfl, rfl⟩
  · intro r' hr' hkey
    simp only [GetMessages] at hr'
    rcases List.mem_map.mp hr' with ⟨r, hr, rfl⟩
    by_cases hk : r.idempotencyKey ∈ selectedKeys tbl batchSize leaseTTL now
    · rw [if_pos hk]
      simp [refreshUpdatedAt]
    · rw [if_neg hk] at hkey
      exact absurd hkey hk
  · intro r hr hk
    simp only [GetMessages]
    have heq : (if r.idempotencyKey ∈ selectedKeys tbl batchSize leaseTTL now
        then refreshUpdatedAt { r with status := .inProgress } now else r) = r := if_neg hk
    exact heq ▸ List.mem_map_of_mem _ hr

theorem getMessages_lease_spec_witness :
    ∃ r ∈ [leaseRow],
      (r.status = .created ∨ (r.status = .inProgress ∧ 20 - r.updatedAt > 5))
      ∧ leaseMsg.idempotencyKey = r.idempotencyKey ∧ leaseMsg.kind = r.kind
      ∧ leaseMsg.rawData = r.data :=
  (getMessages_lease_spec [leaseRow] 10 5 20).2.1 leaseMsg (by decide)

/-- Claim C8: the delete step of UpdateBook carries no book_id filter, so
updating book B1 to an empty author set also deletes author A's link to
the untouched book B2; the whole link table ends up empty although the
claim requires other books' links to be unchanged.  The earlier in-repo
variant of the same method filters the delete by book_id, so the spec
captures the intent and this delete is a slip. -/
theorem updateBook_deletes_other_books_links :
    ("A", "B2") ∈ c8State.authorBook
    ∧ (UpdateBook c8State ("B1") ("b1") [] 1).1.authorBook = []
    ∧ (UpdateBook c8State ("B1") ("b1") [] 1).2 = none := by decide

/-- Claim C9: refuted.  With an empty store, ChangeAuthorInfo on an
unknown author id and UpdateBook on an unknown book id both return nil
rather than the notFound error: neither checks the rows-affected count of
its UPDATE. -/
theorem notFound_not_surfaced_cex :
    emptyLib.authors = []
    ∧ (ChangeAuthorInfo emptyLib ("a1") ("NewName") 1).2 = none
    ∧ emptyLib.books = []
    ∧ (UpdateBook emptyLib ("b1") ("n") [] 1).2 = none := by decide

lemma updStep_no_cur (ids : List String) (acc1 : List String) :
    ids.foldl (fun (acc : List String × List String) id =>
      if id ∈ acc.2 then (acc.1, acc.2.erase id) else (acc.1 ++ [id], acc.2)) (acc1, [])
    = (acc1 ++ ids, []) := by
  induction ids generalizing acc1 with
  | nil => simp
  | cons h t ih => simp [ih]

lemma hasBook_nameUpdate (st : LibState) (bid nm : String) (now : Nat) (b2 : String) :
    hasBook { st with books := st.books.map (fun b =>
      if b.id = bid then { b with name := nm, updatedAt := now } else b) } b2
    = hasBook st b2 := by
  simp only [hasBook, List.any_map]
  congr 1
  funext b
  by_cases h : b.id = bid <;> simp [h]

/-- Claim C9 (amended): ChangeAuthorInfo always returns nil regardless of
whether the author id exists; UpdateBook on a book id with no stored book
and no links returns nil when the new author set is empty, and surfaces
authorNotFound (converted from the foreign-key violation of the link
insert) when it is not; neither operation returns notFound. -/
theorem update_missing_id_returns_ok (st : LibState) (idA nameA bid nm : String)
    (ids : List String) (now : Nat)
    (hb : hasBook st bid = false)
    (hnl : ∀ p ∈ st.authorBook, p.2 ≠ bid) :
    (ChangeAuthorInfo st idA nameA now).2 = none
    ∧ (UpdateBook st bid nm [] now).2 = none
    ∧ (ids ≠ [] → (UpdateBook st bid nm ids now).2 = some .authorNotFound) := by
  refine ⟨rfl, ?_, ?_⟩
  · simp [UpdateBook, addBookAuthors, fkViolation]
  · intro hne
    have hcur : ((st.authorBook.filter (fun p => p.2 == bid)).map (·.1)) = [] := by
      have hfil : st.authorBook.filter (fun p => p.2 == bid) = [] := by
        rw [List.filter_eq_nil_iff]
        intro p hp
        simp [hnl p hp]
      rw [hfil]
      rfl
    simp only [UpdateBook, hcur, updStep_no_cur]
    have hbook : hasBook { st with books := st.books.map (fun b =>
        if b.id = bid then { b with name := nm, updatedAt := now } else b) } bid = false := by
      rw [hasBook_nameUpdate]
      exact hb
    simp [addBookAuthors, fkViolation, hbook, hne]

theorem update_missing_id_returns_ok_witness :
    (ChangeAuthorInfo emptyLib ("a1") ("NewName") 1).2 = none
    ∧ (UpdateBook emptyLib ("b1") ("n") [] 1).2 = none
    ∧ ((["A"] : List String) ≠ []
        → (UpdateBook emptyLib ("b1") ("n") (["A"]) 1).2 = some .authorNotFound) :=
  update_missing_id_returns_ok emptyLib ("a1") ("NewName") ("b1") ("n") (["A"]) 1
    (by decide) (by decide)
